import Mathlib

/-!
Verification of the realtime-ml-system streaming pipeline.

Shallow embedding of the four streaming services (trades ingestion, candle
aggregation, technical indicators, predictions) of the repository.  Python
dictionaries carrying fixed schemas are modelled as Lean structures; decimal
and float arithmetic is modelled over the rationals; fallible code returns
Except.  Each definition is translated from the Python source file named in
its doc comment.
-/

namespace Candles

/-- A trade message as consumed by the candles service
(services/candles/src/candles/main.py).  The reducer reads the fields
price, quantity and product_id; timestamp_ms is carried along for the
validation model. -/
structure TradeMsg where
  product_id : String
  price : ℚ
  quantity : ℚ
  timestamp_ms : ℤ
  deriving Repr, DecidableEq

/-- The reducer state of one tumbling window, as built by init_candle.
The Python dict has keys open, high, low, close, volume, pair; the Lean
keyword open is escaped with guillemets. -/
structure Candle where
  «open» : ℚ
  high : ℚ
  low : ℚ
  close : ℚ
  volume : ℚ
  pair : String
  deriving Repr, DecidableEq

/-- init_candle from services/candles/src/candles/main.py.  The optional
TradeMessage validation inside the Python function only logs (its
InvalidTradeError is caught and processing continues with the original
data), so it does not affect the returned value and is not part of the
state transformation. -/
def init_candle (t : TradeMsg) : Candle :=
  { «open» := t.price
    high := t.price
    low := t.price
    close := t.price
    volume := t.quantity
    pair := t.product_id }

/-- update_candle from services/candles/src/candles/main.py.  As in
init_candle, the optional validation only logs and is dropped. -/
def update_candle (c : Candle) (t : TradeMsg) : Candle :=
  { c with
    high := max c.high t.price
    low := min c.low t.price
    close := t.price
    volume := c.volume + t.quantity }

/-- Folding one window of trades through the quixstreams reducer:
initializer on the first trade, reducer on every subsequent trade
(sdf.tumbling_window(...).reduce(reducer=update_candle,
initializer=init_candle)). -/
def reduce_window (t0 : TradeMsg) (ts : List TradeMsg) : Candle :=
  ts.foldl update_candle (init_candle t0)

theorem foldl_open (ts : List TradeMsg) (c : Candle) :
    (ts.foldl update_candle c).«open» = c.«open» := by
  induction ts generalizing c with
  | nil => rfl
  | cons t ts ih => simpa [update_candle] using ih (update_candle c t)

theorem foldl_pair (ts : List TradeMsg) (c : Candle) :
    (ts.foldl update_candle c).pair = c.pair := by
  induction ts generalizing c with
  | nil => rfl
  | cons t ts ih => simpa [update_candle] using ih (update_candle c t)

theorem foldl_high (ts : List TradeMsg) (c : Candle) :
    (ts.foldl update_candle c).high = (ts.map (·.price)).foldl max c.high := by
  induction ts generalizing c with
  | nil => rfl
  | cons t ts ih => simpa [update_candle] using ih (update_candle c t)

theorem foldl_low (ts : List TradeMsg) (c : Candle) :
    (ts.foldl update_candle c).low = (ts.map (·.price)).foldl min c.low := by
  induction ts generalizing c with
  | nil => rfl
  | cons t ts ih => simpa [update_candle] using ih (update_candle c t)

theorem foldl_close (ts : List TradeMsg) (c : Candle) :
    (ts.foldl update_candle c).close = (ts.map (·.price)).getLastD c.close := by
  induction ts generalizing c with
  | nil => rfl
  | cons t ts ih =>
    have h := ih (update_candle c t)
    have hclose : (update_candle c t).close = t.price := rfl
    rw [hclose] at h
    rw [List.foldl_cons, List.map_cons, List.getLastD_cons]
    exact h

theorem foldl_volume (ts : List TradeMsg) (c : Candle) :
    (ts.foldl update_candle c).volume = c.volume + (ts.map (·.quantity)).sum := by
  induction ts generalizing c with
  | nil => simp
  | cons t ts ih =>
    have h := ih (update_candle c t)
    have hvol : (update_candle c t).volume = c.volume + t.quantity := rfl
    rw [hvol] at h
    rw [List.foldl_cons, List.map_cons, List.sum_cons, h, add_assoc]

/-- C1.  The candle reducer follows the specified algorithm: the window
fold started by init_candle on the first trade and continued by
update_candle on each subsequent trade yields open = first price (never
modified by any update), pair = first product id, high = running max of
all prices, low = running min, close = last price, volume = sum of all
quantities; moreover update_candle literally preserves the open field and
the pair. -/
theorem candle_reducer_follows_algorithm (t0 : TradeMsg) (ts : List TradeMsg) :
    (reduce_window t0 ts).«open» = t0.price ∧
    (reduce_window t0 ts).pair = t0.product_id ∧
    (reduce_window t0 ts).high = (ts.map (·.price)).foldl max t0.price ∧
    (reduce_window t0 ts).low = (ts.map (·.price)).foldl min t0.price ∧
    (reduce_window t0 ts).close = (ts.map (·.price)).getLastD t0.price ∧
    (reduce_window t0 ts).volume = t0.quantity + (ts.map (·.quantity)).sum ∧
    (∀ c u, (update_candle c u).«open» = c.«open» ∧
      (update_candle c u).pair = c.pair) := by
  refine ⟨?_, ?_, ?_, ?_, ?_, ?_, ?_⟩
  · simpa [reduce_window, init_candle] using foldl_open ts (init_candle t0)
  · simpa [reduce_window, init_candle] using foldl_pair ts (init_candle t0)
  · simpa [reduce_window, init_candle] using foldl_high ts (init_candle t0)
  · simpa [reduce_window, init_candle] using foldl_low ts (init_candle t0)
  · simpa [reduce_window, init_candle] using foldl_close ts (init_candle t0)
  · simpa [reduce_window, init_candle] using foldl_volume ts (init_candle t0)
  · intro c u; exact ⟨rfl, rfl⟩

/-- OHLC sanity invariant of a reducer state. -/
def candle_inv (c : Candle) : Prop :=
  c.low ≤ c.«open» ∧ c.«open» ≤ c.high ∧ c.low ≤ c.close ∧ c.close ≤ c.high ∧
    0 ≤ c.volume

theorem candle_inv_init {t : TradeMsg} (hq : 0 ≤ t.quantity) :
    candle_inv (init_candle t) := by
  simp [candle_inv, init_candle, hq]

theorem candle_inv_update {c : Candle} {t : TradeMsg} (hc : candle_inv c)
    (hq : 0 ≤ t.quantity) : candle_inv (update_candle c t) := by
  obtain ⟨h1, h2, h3, h4, h5⟩ := hc
  refine ⟨?_, ?_, ?_, ?_, ?_⟩
  · exact le_trans (min_le_left _ _) h1
  · exact le_trans h2 (le_max_left _ _)
  · exact min_le_right _ _
  · exact le_max_right _ _
  · exact add_nonneg h5 hq

theorem candle_inv_foldl {c : Candle} (ts : List TradeMsg) (hc : candle_inv c)
    (hts : ∀ t ∈ ts, 0 ≤ t.quantity) :
    candle_inv (ts.foldl update_candle c) := by
  induction ts generalizing c with
  | nil => exact hc
  | cons t ts ih =>
    exact ih (candle_inv_update hc (hts t (by simp)))
      (fun u hu => hts u (by simp [hu]))

/-- C2.  For every non-empty sequence of trades with positive prices and
non-negative quantities folded into one window, the resulting candle state
satisfies low ≤ min(open, close) ≤ max(open, close) ≤ high and
volume ≥ 0. -/
theorem candle_invariants (t0 : TradeMsg) (ts : List TradeMsg)
    (h : ∀ t ∈ t0 :: ts, 0 < t.price ∧ 0 ≤ t.quantity) :
    (reduce_window t0 ts).low ≤
        min (reduce_window t0 ts).«open» (reduce_window t0 ts).close ∧
    min (reduce_window t0 ts).«open» (reduce_window t0 ts).close ≤
        max (reduce_window t0 ts).«open» (reduce_window t0 ts).close ∧
    max (reduce_window t0 ts).«open» (reduce_window t0 ts).close ≤
        (reduce_window t0 ts).high ∧
    0 ≤ (reduce_window t0 ts).volume := by
  have hinv : candle_inv (reduce_window t0 ts) := by
    refine candle_inv_foldl ts (candle_inv_init (h t0 (by simp)).2) ?_
    intro t ht; exact (h t (by simp [ht])).2
  obtain ⟨h1, h2, h3, h4, h5⟩ := hinv
  exact ⟨le_min h1 h3, min_le_max, max_le h2 h4, h5⟩

/-- Witness for C2 at a concrete three-trade window. -/
theorem candle_invariants_witness :
    (∀ t ∈ [⟨"BTC/USD", 100, 1, 60000⟩, ⟨"BTC/USD", 120, 2, 80000⟩,
        ⟨"BTC/USD", 90, 3, 100000⟩], 0 < TradeMsg.price t ∧ 0 ≤ TradeMsg.quantity t) ∧
    ((reduce_window ⟨"BTC/USD", 100, 1, 60000⟩
        [⟨"BTC/USD", 120, 2, 80000⟩, ⟨"BTC/USD", 90, 3, 100000⟩]).low ≤
      min (reduce_window ⟨"BTC/USD", 100, 1, 60000⟩
        [⟨"BTC/USD", 120, 2, 80000⟩, ⟨"BTC/USD", 90, 3, 100000⟩]).«open»
        (reduce_window ⟨"BTC/USD", 100, 1, 60000⟩
        [⟨"BTC/USD", 120, 2, 80000⟩, ⟨"BTC/USD", 90, 3, 100000⟩]).close) :=
  ⟨by decide, (candle_invariants ⟨"BTC/USD", 100, 1, 60000⟩
    [⟨"BTC/USD", 120, 2, 80000⟩, ⟨"BTC/USD", 90, 3, 100000⟩] (by decide)).1⟩

/-- Python str.strip: drop whitespace from both ends of the string.
Defined by structural recursion over the character list so that the kernel
can evaluate it (String.trim in core is defined through well-founded
recursion on Substring and does not reduce). -/
def py_strip (s : String) : String :=
  String.mk
    (((s.data.dropWhile Char.isWhitespace).reverse.dropWhile
      Char.isWhitespace).reverse)

/-- TradeMessage validation from services/candles/src/candles/models/trade.py.
pydantic runs, in field order: product_id (Field min_length=1, then
validate_product_id: the stripped value must be non-empty), price (Field
gt=0, then validate_price: reject price > 10000000), quantity (Field ge=0,
then validate_quantity: reject quantity > 1000000000), timestamp_ms
(validate_timestamp: reject above now+60000 or below now-86400000).  Every
raised error is wrapped into InvalidTradeError by from_dict, so the message
is accepted iff no check fires.  now_ms is the wall clock read inside
validate_timestamp. -/
def validate_trade_message (now_ms : ℤ) (t : TradeMsg) : Bool :=
  decide (1 ≤ t.product_id.length) &&
  decide (py_strip t.product_id ≠ "") &&
  decide (0 < t.price) && decide (t.price ≤ 10000000) &&
  decide (0 ≤ t.quantity) && decide (t.quantity ≤ 1000000000) &&
  decide (t.timestamp_ms ≤ now_ms + 60000) &&
  decide (now_ms - 86400000 ≤ t.timestamp_ms)

theorem length_eq_zero_iff_empty (s : String) : s.length = 0 → s = "" := by
  cases s with
  | mk data =>
    intro hs
    have : data = [] := by
      simpa [String.length] using hs
    simp [this]

theorem validate_trade_message_eq_true (now_ms : ℤ) (t : TradeMsg) :
    validate_trade_message now_ms t = true ↔
      (py_strip t.product_id ≠ "" ∧ 0 < t.price ∧ t.price ≤ 10000000 ∧
       0 ≤ t.quantity ∧ t.quantity ≤ 1000000000 ∧
       now_ms - 86400000 ≤ t.timestamp_ms ∧
       t.timestamp_ms ≤ now_ms + 60000) := by
  simp only [validate_trade_message, Bool.and_eq_true, decide_eq_true_eq,
    and_assoc]
  constructor
  · rintro ⟨-, h2, h3, h4, h5, h6, h7, h8⟩
    exact ⟨h2, h3, h4, h5, h6, h8, h7⟩
  · rintro ⟨h2, h3, h4, h5, h6, h8, h7⟩
    refine ⟨?_, h2, h3, h4, h5, h6, h7, h8⟩
    rcases Nat.eq_zero_or_pos t.product_id.length with h | h
    · exact absurd (by rw [length_eq_zero_iff_empty _ h]; decide) h2
    · exact h

/-- Counterexample to C3 as stated: the trade (pair BTC/USD, price
20000000, quantity 1, timestamp now) violates none of the four stated
rejection conditions, yet TradeMessage validation rejects it (the
validate_price bound fires). -/
theorem trade_validation_iff_counterexample :
    validate_trade_message 0 ⟨"BTC/USD", 20000000, 1, 0⟩ = false ∧
    ¬((20000000 : ℚ) ≤ 0) ∧ ¬((1 : ℚ) < 0) ∧ "BTC/USD" ≠ "" ∧
    ¬((0 : ℤ) < 0 - 86400000) ∧ ¬((0 : ℤ) + 60000 < 0) := by
  decide

/-- C3 amended.  Trade validation rejects a trade iff its price ≤ 0, or
price > 10000000, or quantity < 0, or quantity > 1000000000, or its pair
is empty after stripping whitespace, or its timestamp_ms lies outside
[now - 24h, now + 60s]; every trade satisfying all conditions is
accepted. -/
theorem trade_validation_iff_amended (now_ms : ℤ) (t : TradeMsg) :
    validate_trade_message now_ms t = false ↔
      (t.price ≤ 0 ∨ 10000000 < t.price ∨ t.quantity < 0 ∨
       1000000000 < t.quantity ∨ py_strip t.product_id = "" ∨
       t.timestamp_ms < now_ms - 86400000 ∨
       now_ms + 60000 < t.timestamp_ms) := by
  rw [← Bool.not_eq_true, validate_trade_message_eq_true]
  constructor
  · intro h
    by_contra hc
    push_neg at hc
    exact h ⟨hc.2.2.2.2.1, hc.1, hc.2.1, hc.2.2.1, hc.2.2.2.1,
      hc.2.2.2.2.2.1, hc.2.2.2.2.2.2⟩
  · rintro (h | h | h | h | h | h | h) ⟨h1, h2, h3, h4, h5, h6, h7⟩
    · exact absurd h (not_le.mpr h2)
    · exact absurd h (not_lt.mpr h3)
    · exact absurd h (not_lt.mpr h4)
    · exact absurd h (not_lt.mpr h5)
    · exact h1 h
    · exact absurd h (not_lt.mpr h6)
    · exact absurd h (not_lt.mpr h7)

/-- C10.  Trade validation also enforces upper bounds the spec does not
state: some trade with quantity > 1000000000 is rejected even though its
pair is non-empty, price > 0, quantity ≥ 0 and timestamp_ms lies within
[now - 24h, now + 60s]. -/
theorem trade_validation_upper_bounds :
    ∃ (now_ms : ℤ) (t : TradeMsg),
      (10000000 < t.price ∨ 1000000000 < t.quantity) ∧
      t.product_id ≠ "" ∧ 0 < t.price ∧ 0 ≤ t.quantity ∧
      now_ms - 86400000 ≤ t.timestamp_ms ∧ t.timestamp_ms ≤ now_ms + 60000 ∧
      validate_trade_message now_ms t = false :=
  ⟨0, ⟨"BTC/USD", 1, 2000000000, 0⟩, by decide⟩

/-- A Python value as found in a JSON-decoded Kafka record: a decimal or
float (num), an integer, or a string. -/
inductive PVal where
  | num (q : ℚ)
  | int (z : ℤ)
  | str (s : String)
  deriving Repr, DecidableEq

/-- A Python dict keyed by strings, as produced by json deserialization. -/
abbrev PyDict := List (String × PVal)

/-- The flat candle record the candles streaming dataframe assembles before
validation: the reducer state plus the window columns (main.py, the column
selection right before validate_and_format_candle). -/
structure CandleRecord where
  pair : String
  «open» : ℚ
  high : ℚ
  low : ℚ
  close : ℚ
  volume : ℚ
  window_start_ms : ℤ
  window_end_ms : ℤ
  candle_seconds : ℤ
  deriving Repr, DecidableEq

/-- The validated CandleOutput pydantic model
(services/candles/src/candles/models/candle.py): the record fields plus the
schema_version default. -/
structure CandleOutput where
  pair : String
  «open» : ℚ
  high : ℚ
  low : ℚ
  close : ℚ
  volume : ℚ
  window_start_ms : ℤ
  window_end_ms : ℤ
  candle_seconds : ℤ
  schema_version : String
  deriving Repr, DecidableEq

/-- The CandleOutput value built when every check passes. -/
def mk_candle_output (cd : CandleRecord) : CandleOutput :=
  { pair := cd.pair, «open» := cd.«open», high := cd.high, low := cd.low,
    close := cd.close, volume := cd.volume,
    window_start_ms := cd.window_start_ms,
    window_end_ms := cd.window_end_ms,
    candle_seconds := cd.candle_seconds, schema_version := "1.0" }

/-- CandleOutput.from_aggregation_result
(services/candles/src/candles/models/candle.py).  The pydantic checks run
in field order (validate_prices_positive on open, high, low, close; the
volume ge=0 Field bound; validate_window_order; the candle_seconds gt=0
Field bound) and then validate_ohlc_consistency; any raised error is
wrapped into ValidationError. -/
def from_aggregation_result (cd : CandleRecord) : Except Unit CandleOutput :=
  if cd.«open» ≤ 0 then .error () else
  if cd.high ≤ 0 then .error () else
  if cd.low ≤ 0 then .error () else
  if cd.close ≤ 0 then .error () else
  if cd.volume < 0 then .error () else
  if cd.window_end_ms ≤ cd.window_start_ms then .error () else
  if cd.candle_seconds ≤ 0 then .error () else
  if cd.high < cd.low then .error () else
  if cd.«open» > cd.high ∨ cd.«open» < cd.low then .error () else
  if cd.close > cd.high ∨ cd.close < cd.low then .error () else
  .ok (mk_candle_output cd)

/-- CandleOutput.to_kafka_message: prices and volume serialized as strings,
window fields as integers, plus the schema version. -/
def to_kafka_message (o : CandleOutput) : PyDict :=
  [("pair", .str o.pair),
   ("open", .str (toString o.«open»)),
   ("high", .str (toString o.high)),
   ("low", .str (toString o.low)),
   ("close", .str (toString o.close)),
   ("volume", .str (toString o.volume)),
   ("window_start_ms", .int o.window_start_ms),
   ("window_end_ms", .int o.window_end_ms),
   ("candle_seconds", .int o.candle_seconds),
   ("schema_version", .str o.schema_version)]

/-- The unvalidated candle record as the dict the dataframe passes to
validate_and_format_candle. -/
def candle_record_dict (cd : CandleRecord) : PyDict :=
  [("pair", .str cd.pair),
   ("open", .num cd.«open»),
   ("high", .num cd.high),
   ("low", .num cd.low),
   ("close", .num cd.close),
   ("volume", .num cd.volume),
   ("window_start_ms", .int cd.window_start_ms),
   ("window_end_ms", .int cd.window_end_ms),
   ("candle_seconds", .int cd.candle_seconds)]

/-- validate_and_format_candle from services/candles/src/candles/main.py:
the validated kafka message on success, the original unvalidated record on
ValidationError (from_aggregation_result wraps every failure into
ValidationError, so the except clause catches every failure). -/
def validate_and_format_candle (cd : CandleRecord) : PyDict :=
  match from_aggregation_result cd with
  | .ok o => to_kafka_message o
  | .error _ => candle_record_dict cd

/-- The validity conditions of the output model, as one predicate:
positive prices, non-negative volume, ordered window bounds, positive
candle_seconds, consistent OHLC. -/
def valid_candle_output (cd : CandleRecord) : Prop :=
  0 < cd.«open» ∧ 0 < cd.high ∧ 0 < cd.low ∧ 0 < cd.close ∧
  0 ≤ cd.volume ∧ cd.window_start_ms < cd.window_end_ms ∧
  0 < cd.candle_seconds ∧ cd.low ≤ cd.high ∧
  cd.low ≤ cd.«open» ∧ cd.«open» ≤ cd.high ∧
  cd.low ≤ cd.close ∧ cd.close ≤ cd.high

instance (cd : CandleRecord) : Decidable (valid_candle_output cd) := by
  unfold valid_candle_output; infer_instance

set_option maxHeartbeats 1000000 in
theorem from_aggregation_result_eq (cd : CandleRecord) :
    from_aggregation_result cd =
      if valid_candle_output cd then .ok (mk_candle_output cd)
      else .error () := by
  by_cases h : valid_candle_output cd
  · rw [if_pos h]
    obtain ⟨h1, h2, h3, h4, h5, h6, h7, h8, h9, h10, h11, h12⟩ := h
    unfold from_aggregation_result
    rw [if_neg (not_le.mpr h1), if_neg (not_le.mpr h2), if_neg (not_le.mpr h3),
        if_neg (not_le.mpr h4), if_neg (not_lt.mpr h5), if_neg (not_le.mpr h6),
        if_neg (not_le.mpr h7), if_neg (not_lt.mpr h8),
        if_neg (not_or.mpr ⟨not_lt.mpr h10, not_lt.mpr h9⟩),
        if_neg (not_or.mpr ⟨not_lt.mpr h12, not_lt.mpr h11⟩)]
  · rw [if_neg h]
    unfold from_aggregation_result
    split_ifs with h1 h2 h3 h4 h5 h6 h7 h8 h9 h10 <;> try rfl
    exact absurd
      ⟨not_le.mp h1, not_le.mp h2, not_le.mp h3, not_le.mp h4,
       not_lt.mp h5, not_le.mp h6, not_le.mp h7, not_lt.mp h8,
       not_lt.mp (not_or.mp h9).2, not_lt.mp (not_or.mp h9).1,
       not_lt.mp (not_or.mp h10).2, not_lt.mp (not_or.mp h10).1⟩ h

/-- C6.  Candle output validation never blocks the stream: for every
candle record validate_and_format_candle returns a record — the
validated and formatted kafka message when every check passes, and on any
validation failure the original unvalidated input record, unchanged, so a
violating candle is still emitted. -/
theorem candle_validation_never_blocks (cd : CandleRecord) :
    (valid_candle_output cd ∧
      validate_and_format_candle cd = to_kafka_message (mk_candle_output cd)) ∨
    (¬ valid_candle_output cd ∧
      validate_and_format_candle cd = candle_record_dict cd) := by
  by_cases h : valid_candle_output cd
  · left
    refine ⟨h, ?_⟩
    unfold validate_and_format_candle
    rw [from_aggregation_result_eq, if_pos h]
  · right
    refine ⟨h, ?_⟩
    unfold validate_and_format_candle
    rw [from_aggregation_result_eq, if_neg h]

/-- float() applied to a dict value inside init_candle.  The trade payload
carries its numbers as JSON numbers; a numeric value converts to the same
rational. -/
def py_float : PVal → Except String ℚ
  | .num q => .ok q
  | .int z => .ok (z : ℚ)
  | .str _ => .error "float"

/-- Subscription trade[k] on a Python dict: KeyError k when absent. -/
def dict_get (d : PyDict) (k : String) : Except String PVal :=
  match d.lookup k with
  | some v => .ok v
  | none => .error k

/-- init_candle from services/candles/src/candles/main.py over the raw
JSON-decoded message, keeping the dictionary accesses of the source: the
dict literal evaluates float(trade[price]) for open, high, low and close,
float(trade[quantity]) for volume, and reads trade[product_id] for the
pair key.  A missing key raises KeyError, which nothing in the function
catches (the try block only catches InvalidTradeError). -/
def init_candle_dyn (trade : PyDict) : Except String PyDict := do
  let p ← dict_get trade "price"
  let popen ← py_float p
  let q ← dict_get trade "quantity"
  let qv ← py_float q
  let pid ← dict_get trade "product_id"
  return [("open", .num popen), ("high", .num popen), ("low", .num popen),
          ("close", .num popen), ("volume", .num qv), ("pair", pid)]

/-- A trade record of the trades-topic wire shape of the specification:
exactly the fields pair, price, quantity, timestamp_ms. -/
def wire_trade_example : PyDict :=
  [("pair", .str "BTC/USD"), ("price", .num 100), ("quantity", .num 1),
   ("timestamp_ms", .int 60000)]

/-- Counterexample to C9 as stated: on a record of the specified wire
shape (fields pair, price, quantity, timestamp_ms) init_candle raises
KeyError on product_id instead of succeeding, because it reads the pair
from the field product_id. -/
theorem init_candle_wire_shape_counterexample :
    init_candle_dyn wire_trade_example = .error "product_id" := by rfl

/-- C9 amended.  For every trade record that carries its pair under the
field product_id — exactly the fields product_id, price, quantity,
timestamp_ms with numeric price and quantity — init_candle succeeds
without raising and produces a candle whose pair equals the trade's
product_id. -/
theorem init_candle_product_id_ok (pid : String) (p q : ℚ) (ts : ℤ) :
    init_candle_dyn
      [("product_id", .str pid), ("price", .num p), ("quantity", .num q),
       ("timestamp_ms", .int ts)] =
    .ok [("open", .num p), ("high", .num p), ("low", .num p),
         ("close", .num p), ("volume", .num q), ("pair", .str pid)] := by
  rfl

end Candles

namespace Predictions

/-- Constants from services/predictions/src/predictions/utils/constants.py. -/
def DEFAULT_RSI_VALUE : ℚ := 50

def RSI_OVERSOLD_THRESHOLD : ℚ := 30

def RSI_OVERBOUGHT_THRESHOLD : ℚ := 70

def DEFAULT_CLOSE_PRICE : ℚ := 100

def PRICE_INCREASE_MULTIPLIER : ℚ := 102 / 100

def PRICE_DECREASE_MULTIPLIER : ℚ := 98 / 100

def HIGH_CONFIDENCE_SCORE : ℚ := 7 / 10

def MEDIUM_CONFIDENCE_SCORE : ℚ := 5 / 10

def POSITIVE_SIGNAL_STRENGTH : ℚ := 5 / 10

def NEGATIVE_SIGNAL_STRENGTH : ℚ := -5 / 10

def NEUTRAL_SIGNAL_STRENGTH : ℚ := 0

def DUMMY_MODEL_NAME : String := "dummy_rsi_model"

def DUMMY_MODEL_VERSION : String := "1.0.0"

def DEFAULT_PREDICTION_HORIZON_MINUTES : ℤ := 5

def DUMMY_MODEL_FEATURES : List String := ["rsi_14", "close"]

def DEFAULT_PREDICTION_TYPE : String := "price_direction"

/-- An indicator record as consumed by the predictions service: the fields
the service reads, each optional because indicators.get is used on the raw
dict (pair is read with a bare subscription inside
Prediction.from_indicators and may be missing). -/
structure IndicatorMsg where
  pair : Option String
  rsi_14 : Option ℚ
  close : Option ℚ
  deriving Repr, DecidableEq

/-- The dict returned by dummy_model_prediction
(services/predictions/src/predictions/main.py). -/
structure ModelOutput where
  prediction_value : ℚ
  confidence_score : ℚ
  model_name : String
  model_version : String
  prediction_horizon_minutes : ℤ
  features_used : List String
  signal_strength : Option ℚ
  prediction_type : String
  deriving Repr, DecidableEq

/-- dummy_model_prediction from services/predictions/src/predictions/main.py:
the RSI threshold policy with indicators.get defaults. -/
def dummy_model_prediction (ind : IndicatorMsg) : ModelOutput :=
  let rsi_14 := ind.rsi_14.getD DEFAULT_RSI_VALUE
  let vcs : ℚ × ℚ × ℚ :=
    if rsi_14 < RSI_OVERSOLD_THRESHOLD then
      ((ind.close.getD DEFAULT_CLOSE_PRICE) * PRICE_INCREASE_MULTIPLIER,
       HIGH_CONFIDENCE_SCORE, POSITIVE_SIGNAL_STRENGTH)
    else if RSI_OVERBOUGHT_THRESHOLD < rsi_14 then
      ((ind.close.getD DEFAULT_CLOSE_PRICE) * PRICE_DECREASE_MULTIPLIER,
       HIGH_CONFIDENCE_SCORE, NEGATIVE_SIGNAL_STRENGTH)
    else
      ((ind.close.getD DEFAULT_CLOSE_PRICE),
       MEDIUM_CONFIDENCE_SCORE, NEUTRAL_SIGNAL_STRENGTH)
  { prediction_value := vcs.1
    confidence_score := vcs.2.1
    model_name := DUMMY_MODEL_NAME
    model_version := DUMMY_MODEL_VERSION
    prediction_horizon_minutes := DEFAULT_PREDICTION_HORIZON_MINUTES
    features_used := DUMMY_MODEL_FEATURES
    signal_strength := some vcs.2.2
    prediction_type := DEFAULT_PREDICTION_TYPE }

/-- The reference model policy exactly as the specification words it
(section 4.4): thresholds on rsi_14 with defaults rsi_14 = 50 and
close = 100 when the fields are missing; result is the triple
(prediction_value, confidence, signal_strength). -/
def spec_threshold_policy (rsi_14 close : ℚ) : ℚ × ℚ × ℚ :=
  if rsi_14 < 30 then (close * (102 / 100), 7 / 10, 5 / 10)
  else if 70 < rsi_14 then (close * (98 / 100), 7 / 10, -(5 / 10))
  else (close, 5 / 10, 0)

/-- C5.  The reference prediction model is the exact threshold policy on
rsi_14 with defaults rsi_14 = 50 and close = 100 when the fields are
missing: dummy_model_prediction returns exactly the prediction value,
confidence and signal strength of the specified policy. -/
theorem dummy_model_is_spec_policy (ind : IndicatorMsg) :
    (dummy_model_prediction ind).prediction_value =
      (spec_threshold_policy (ind.rsi_14.getD 50) (ind.close.getD 100)).1 ∧
    (dummy_model_prediction ind).confidence_score =
      (spec_threshold_policy (ind.rsi_14.getD 50) (ind.close.getD 100)).2.1 ∧
    (dummy_model_prediction ind).signal_strength =
      some (spec_threshold_policy (ind.rsi_14.getD 50) (ind.close.getD 100)).2.2 := by
  unfold dummy_model_prediction spec_threshold_policy DEFAULT_RSI_VALUE
    DEFAULT_CLOSE_PRICE RSI_OVERSOLD_THRESHOLD RSI_OVERBOUGHT_THRESHOLD
    PRICE_INCREASE_MULTIPLIER PRICE_DECREASE_MULTIPLIER HIGH_CONFIDENCE_SCORE
    MEDIUM_CONFIDENCE_SCORE POSITIVE_SIGNAL_STRENGTH NEGATIVE_SIGNAL_STRENGTH
    NEUTRAL_SIGNAL_STRENGTH
  dsimp only
  split_ifs with h1 h2 <;> exact ⟨rfl, rfl, by norm_num⟩

/-- The Prediction pydantic model
(services/predictions/src/predictions/models/prediction.py). -/
structure Prediction where
  pair : String
  prediction_timestamp_ms : ℤ
  prediction_value : ℚ
  confidence_score : ℚ
  model_name : String
  model_version : String
  prediction_horizon_minutes : ℤ
  features_used : List String
  input_indicators : IndicatorMsg
  schema_version : String
  signal_strength : Option ℚ
  prediction_type : String
  deriving Repr, DecidableEq

/-- The validate_signal_strength check: out of [-1, 1] when present. -/
def signal_strength_invalid : Option ℚ → Bool
  | some s => decide (s < -1) || decide (1 < s)
  | none => false

/-- Prediction.from_indicators: reads indicators[pair] (KeyError when
missing), stamps the current clock, and runs the pydantic validators in
field order (prediction_value > 0, confidence_score in [0,1],
signal_strength in [-1,1] when present, prediction_horizon_minutes > 0,
features_used non-empty) and the after-model validator (model name and
version non-blank; the timestamp distance check compares the construction
clock with the validation clock, both modelled by now_ms, so it compares
now_ms with itself).  Every failure is wrapped into PredictionError. -/
def from_indicators (ind : IndicatorMsg) (mo : ModelOutput) (now_ms : ℤ) :
    Except Unit Prediction :=
  match ind.pair with
  | none => .error ()
  | some pr =>
    if mo.prediction_value ≤ 0 then .error ()
    else if mo.confidence_score < 0 ∨ 1 < mo.confidence_score then .error ()
    else if signal_strength_invalid mo.signal_strength then .error ()
    else if mo.prediction_horizon_minutes ≤ 0 then .error ()
    else if mo.features_used.isEmpty then .error ()
    else if Candles.py_strip mo.model_name = "" then .error ()
    else if Candles.py_strip mo.model_version = "" then .error ()
    else if 24 * 3600000 < |now_ms - now_ms| then .error ()
    else .ok
      { pair := pr
        prediction_timestamp_ms := now_ms
        prediction_value := mo.prediction_value
        confidence_score := mo.confidence_score
        model_name := mo.model_name
        model_version := mo.model_version
        prediction_horizon_minutes := mo.prediction_horizon_minutes
        features_used := mo.features_used
        input_indicators := ind
        schema_version := "1.0"
        signal_strength := mo.signal_strength
        prediction_type := mo.prediction_type }

/-- A value of the serialized prediction dict. -/
inductive PredVal where
  | num (q : ℚ)
  | int (z : ℤ)
  | str (s : String)
  | strlist (l : List String)
  | inddict (ind : IndicatorMsg)
  | none_
  deriving Repr, DecidableEq

/-- Prediction.to_dict: model_dump in field order with prediction_value,
confidence_score and a present signal_strength converted to strings. -/
def to_dict (p : Prediction) : List (String × PredVal) :=
  [("pair", .str p.pair),
   ("prediction_timestamp_ms", .int p.prediction_timestamp_ms),
   ("prediction_value", .str (toString p.prediction_value)),
   ("confidence_score", .str (toString p.confidence_score)),
   ("model_name", .str p.model_name),
   ("model_version", .str p.model_version),
   ("prediction_horizon_minutes", .int p.prediction_horizon_minutes),
   ("features_used", .strlist p.features_used),
   ("input_indicators", .inddict p.input_indicators),
   ("schema_version", .str p.schema_version),
   ("signal_strength",
     match p.signal_strength with
     | some s => .str (toString s)
     | none => .none_),
   ("prediction_type", .str p.prediction_type)]

/-- process_indicators_to_prediction from
services/predictions/src/predictions/main.py: the serialized prediction
on success, the empty dict on any raised error (PredictionError and every
other exception are both caught). -/
def process_indicators_to_prediction (ind : IndicatorMsg) (now_ms : ℤ) :
    List (String × PredVal) :=
  match from_indicators ind (dummy_model_prediction ind) now_ms with
  | .ok p => to_dict p
  | .error _ => []

/-- The dataflow of run_predictions_service after the candle_seconds
filter: apply process_indicators_to_prediction to every record, then keep
only non-empty outputs (sdf.apply followed by the len(x) > 0 filter feeding
the output topic).  validate_indicators_optional only logs and does not
change the stream. -/
def predictions_pipeline (now_ms : ℤ) (records : List IndicatorMsg) :
    List (List (String × PredVal)) :=
  (records.map (fun r => process_indicators_to_prediction r now_ms)).filter
    (fun x => 0 < x.length)

/-- C7.  If prediction construction raises for an indicator record, the
predictions service emits nothing for that record: its processing output
is the empty dict, which the length filter removes before the output
topic, and every surrounding record is still processed. -/
theorem model_error_emits_nothing (now_ms : ℤ) (xs ys : List IndicatorMsg)
    (r : IndicatorMsg)
    (h : ∃ e, from_indicators r (dummy_model_prediction r) now_ms = .error e) :
    predictions_pipeline now_ms (xs ++ r :: ys) =
      predictions_pipeline now_ms xs ++ predictions_pipeline now_ms ys := by
  obtain ⟨e, he⟩ := h
  have hr : process_indicators_to_prediction r now_ms = [] := by
    unfold process_indicators_to_prediction
    rw [he]
  unfold predictions_pipeline
  rw [List.map_append, List.map_cons, List.filter_append, List.filter_cons]
  simp [hr]

/-- Witness for C7: the record with no pair field fails construction with
KeyError, and the pipeline output over a three-record stream equals the
outputs of the records around it. -/
theorem model_error_emits_nothing_witness :
    (∃ e, from_indicators ⟨none, none, none⟩
        (dummy_model_prediction ⟨none, none, none⟩) 0 = .error e) ∧
    predictions_pipeline 0
        ([⟨some "BTC/USD", some 50, some 100⟩] ++ ⟨none, none, none⟩ ::
          [⟨some "ETH/USD", some 25, some 10⟩]) =
      predictions_pipeline 0 [⟨some "BTC/USD", some 50, some 100⟩] ++
        predictions_pipeline 0 [⟨some "ETH/USD", some 25, some 10⟩] :=
  ⟨⟨(), rfl⟩, model_error_emits_nothing 0 [⟨some "BTC/USD", some 50, some 100⟩]
    [⟨some "ETH/USD", some 25, some 10⟩] ⟨none, none, none⟩ ⟨(), rfl⟩⟩

end Predictions

namespace TechnicalIndicators

/-- An indicator field key of the emitted record.  The Python code builds
the dict keys with f-strings (sma_7, ema_14, rsi_21, ...), which are
injective in the period, so the keys are modelled by injective
constructors. -/
inductive IndKey where
  | sma (p : ℕ)
  | ema (p : ℕ)
  | rsi (p : ℕ)
  | macd_7
  | macdsignal_7
  | macdhist_7
  | obv
  deriving Repr, DecidableEq

/-- A candle held in the per-pair state buffer.  The buffer is filled from
JSON candle records of the candles topic, which always carry the five
OHLCV fields, so the required-field guard of the source never fires. -/
structure BufferCandle where
  «open» : ℚ
  high : ℚ
  low : ℚ
  close : ℚ
  volume : ℚ
  deriving Repr, DecidableEq

/-- The talib.stream calls used by the indicators service, as functions of
the close (and volume) series.  A result of none models a NaN or infinite
float (np.isnan or np.isinf true); some q models a finite value.  For
example stream.RSI yields NaN when the series holds exactly timeperiod
elements, since RSI needs timeperiod + 1 values. -/
structure TalibStream where
  SMA : List ℚ → ℕ → Option ℚ
  EMA : List ℚ → ℕ → Option ℚ
  RSI : List ℚ → ℕ → Option ℚ
  MACD : List ℚ → Option ℚ × Option ℚ × Option ℚ
  OBV : List ℚ → List ℚ → Option ℚ

/-- The configured indicator periods
(services/technical_indicators/src/technical_indicators/config/config.py,
defaults 7, 14, 21, 60 for each family). -/
structure IndSettings where
  sma_periods : List ℕ
  ema_periods : List ℕ
  rsi_periods : List ℕ
  deriving Repr, DecidableEq

/-- The indicator part of compute_technical_indicators
(services/technical_indicators/src/technical_indicators/indicators.py):
with fewer than 2 candles the function returns the candle unchanged (no
indicator field); otherwise it adds sma_p / ema_p / rsi_p for every
configured period p with len(candles) >= p, the three MACD fields when
len(candles) >= 26, and obv, merging them over the candle record.  The
final loop replaces every NaN or infinite value by None — the key stays in
the dict; in this model the value none stands for that None.  The output
record is the consumed candle record plus exactly these entries. -/
def compute_technical_indicators (talib : TalibStream) (settings : IndSettings)
    (candles : List BufferCandle) : List (IndKey × Option ℚ) :=
  if candles.length < 2 then []
  else
    let close := candles.map (·.close)
    let volume := candles.map (·.volume)
    ((settings.sma_periods.filter (fun p => p ≤ candles.length)).map
      (fun p => (IndKey.sma p, talib.SMA close p))) ++
    ((settings.ema_periods.filter (fun p => p ≤ candles.length)).map
      (fun p => (IndKey.ema p, talib.EMA close p))) ++
    ((settings.rsi_periods.filter (fun p => p ≤ candles.length)).map
      (fun p => (IndKey.rsi p, talib.RSI close p))) ++
    (if 26 ≤ candles.length then
      [(IndKey.macd_7, (talib.MACD close).1),
       (IndKey.macdsignal_7, (talib.MACD close).2.1),
       (IndKey.macdhist_7, (talib.MACD close).2.2)]
     else []) ++
    [(IndKey.obv, talib.OBV close volume)]

/-- A talib environment whose streaming calls all yield NaN, as stream.RSI
does on a series with exactly timeperiod elements. -/
def nan_talib : TalibStream :=
  { SMA := fun _ _ => none
    EMA := fun _ _ => none
    RSI := fun _ _ => none
    MACD := fun _ => (none, none, none)
    OBV := fun _ _ => none }

/-- A buffer of 14 identical candles. -/
def buffer14 : List BufferCandle :=
  List.replicate 14 ⟨1, 1, 1, 1, 1⟩

/-- Counterexample to C4 as stated: with rsi_periods containing 14 and a
buffer of 14 candles whose RSI computation yields NaN, the emitted record
still contains the field rsi_14 — mapped to None (null), not omitted. -/
theorem nan_indicator_present_counterexample :
    nan_talib.RSI (buffer14.map (·.close)) 14 = none ∧
    (IndKey.rsi 14, (none : Option ℚ)) ∈
      compute_technical_indicators nan_talib ⟨[], [], [14]⟩ buffer14 := by
  exact ⟨rfl, by decide⟩

/-- C4 amended.  For every configured period p the field sma_p (likewise
ema_p, rsi_p) is present in the emitted record iff the per-pair buffer
holds at least p candles and at least 2 candles; the macd_7, macdsignal_7
and macdhist_7 fields are present iff the buffer holds at least 26
candles; and an indicator whose computed value is NaN or infinite is
emitted with the value None (null) — the field stays present — rather than
omitted. -/
theorem mem_period_map {k : ℕ → IndKey} (hk : ∀ a b, k a = k b → a = b)
    (F : ℕ → Option ℚ) (periods : List ℕ) (n p : ℕ) (v : Option ℚ) :
    ((k p, v) ∈ (periods.filter (fun q => q ≤ n)).map (fun q => (k q, F q))) ↔
      (p ∈ periods ∧ p ≤ n ∧ v = F p) := by
  constructor
  · intro h
    obtain ⟨q, hq, heq⟩ := List.mem_map.mp h
    obtain ⟨hq1, hq2⟩ := List.mem_filter.mp hq
    have h1 : k q = k p := congrArg Prod.fst heq
    have h2 : F q = v := congrArg Prod.snd heq
    obtain rfl := hk q p h1
    exact ⟨hq1, by simpa using hq2, h2.symm⟩
  · rintro ⟨hp, hn, rfl⟩
    exact List.mem_map.mpr ⟨p, List.mem_filter.mpr ⟨hp, by simpa⟩, rfl⟩

theorem mem_compute_sma (talib : TalibStream) (settings : IndSettings)
    (candles : List BufferCandle) (p : ℕ) (v : Option ℚ) :
    ((IndKey.sma p, v) ∈ compute_technical_indicators talib settings candles)
      ↔ (2 ≤ candles.length ∧ p ∈ settings.sma_periods ∧
          p ≤ candles.length ∧
          v = talib.SMA (candles.map (·.close)) p) := by
  unfold compute_technical_indicators
  by_cases h2 : candles.length < 2
  · rw [if_pos h2]
    simp only [List.not_mem_nil, false_iff]
    rintro ⟨h, -⟩
    omega
  · rw [if_neg h2]
    dsimp only
    constructor
    · intro h
      rcases List.mem_append.mp h with h | hE
      rcases List.mem_append.mp h with h | hD
      rcases List.mem_append.mp h with h | hC
      rcases List.mem_append.mp h with hA | hB
      · have := (mem_period_map (fun a b => IndKey.sma.inj) _ _ _ _ _).mp hA
        exact ⟨not_lt.mp h2, this.1, this.2.1, this.2.2⟩
      · exact absurd hB (by simp)
      · exact absurd hC (by simp)
      · exact absurd hD (by split_ifs <;> simp)
      · exact absurd hE (by simp)
    · rintro ⟨-, hp, hl, rfl⟩
      refine List.mem_append.mpr (Or.inl (List.mem_append.mpr (Or.inl
        (List.mem_append.mpr (Or.inl (List.mem_append.mpr (Or.inl ?_)))))))
      exact (mem_period_map (fun a b => IndKey.sma.inj) _ _ _ _ _).mpr
        ⟨hp, hl, rfl⟩

theorem mem_compute_ema (talib : TalibStream) (settings : IndSettings)
    (candles : List BufferCandle) (p : ℕ) (v : Option ℚ) :
    ((IndKey.ema p, v) ∈ compute_technical_indicators talib settings candles)
      ↔ (2 ≤ candles.length ∧ p ∈ settings.ema_periods ∧
          p ≤ candles.length ∧
          v = talib.EMA (candles.map (·.close)) p) := by
  unfold compute_technical_indicators
  by_cases h2 : candles.length < 2
  · rw [if_pos h2]
    simp only [List.not_mem_nil, false_iff]
    rintro ⟨h, -⟩
    omega
  · rw [if_neg h2]
    dsimp only
    constructor
    · intro h
      rcases List.mem_append.mp h with h | hE
      rcases List.mem_append.mp h with h | hD
      rcases List.mem_append.mp h with h | hC
      rcases List.mem_append.mp h with hA | hB
      · exact absurd hA (by simp)
      · have := (mem_period_map (fun a b => IndKey.ema.inj) _ _ _ _ _).mp hB
        exact ⟨not_lt.mp h2, this.1, this.2.1, this.2.2⟩
      · exact absurd hC (by simp)
      · exact absurd hD (by split_ifs <;> simp)
      · exact absurd hE (by simp)
    · rintro ⟨-, hp, hl, rfl⟩
      refine List.mem_append.mpr (Or.inl (List.mem_append.mpr (Or.inl
        (List.mem_append.mpr (Or.inl (List.mem_append.mpr (Or.inr ?_)))))))
      exact (mem_period_map (fun a b => IndKey.ema.inj) _ _ _ _ _).mpr
        ⟨hp, hl, rfl⟩

theorem mem_compute_rsi (talib : TalibStream) (settings : IndSettings)
    (candles : List BufferCandle) (p : ℕ) (v : Option ℚ) :
    ((IndKey.rsi p, v) ∈ compute_technical_indicators talib settings candles)
      ↔ (2 ≤ candles.length ∧ p ∈ settings.rsi_periods ∧
          p ≤ candles.length ∧
          v = talib.RSI (candles.map (·.close)) p) := by
  unfold compute_technical_indicators
  by_cases h2 : candles.length < 2
  · rw [if_pos h2]
    simp only [List.not_mem_nil, false_iff]
    rintro ⟨h, -⟩
    omega
  · rw [if_neg h2]
    dsimp only
    constructor
    · intro h
      rcases List.mem_append.mp h with h | hE
      rcases List.mem_append.mp h with h | hD
      rcases List.mem_append.mp h with h | hC
      rcases List.mem_append.mp h with hA | hB
      · exact absurd hA (by simp)
      · exact absurd hB (by simp)
      · have := (mem_period_map (fun a b => IndKey.rsi.inj) _ _ _ _ _).mp hC
        exact ⟨not_lt.mp h2, this.1, this.2.1, this.2.2⟩
      · exact absurd hD (by split_ifs <;> simp)
      · exact absurd hE (by simp)
    · rintro ⟨-, hp, hl, rfl⟩
      refine List.mem_append.mpr (Or.inl (List.mem_append.mpr (Or.inl
        (List.mem_append.mpr (Or.inr ?_)))))
      exact (mem_period_map (fun a b => IndKey.rsi.inj) _ _ _ _ _).mpr
        ⟨hp, hl, rfl⟩

theorem mem_compute_macd (talib : TalibStream) (settings : IndSettings)
    (candles : List BufferCandle) (v : Option ℚ) :
    ((IndKey.macd_7, v) ∈ compute_technical_indicators talib settings candles)
      ↔ (26 ≤ candles.length ∧
          v = (talib.MACD (candles.map (·.close))).1) := by
  unfold compute_technical_indicators
  by_cases h2 : candles.length < 2
  · rw [if_pos h2]
    simp only [List.not_mem_nil, false_iff]
    rintro ⟨h, -⟩
    omega
  · rw [if_neg h2]
    dsimp only
    constructor
    · intro h
      rcases List.mem_append.mp h with h | hE
      rcases List.mem_append.mp h with h | hD
      rcases List.mem_append.mp h with h | hC
      rcases List.mem_append.mp h with hA | hB
      · exact absurd hA (by simp)
      · exact absurd hB (by simp)
      · exact absurd hC (by simp)
      · revert hD
        split_ifs with h26 <;> intro hD <;> simp_all
      · exact absurd hE (by simp)
    · rintro ⟨h26, rfl⟩
      refine List.mem_append.mpr (Or.inl (List.mem_append.mpr (Or.inr ?_)))
      rw [if_pos h26]
      simp

theorem mem_compute_macdsignal (talib : TalibStream) (settings : IndSettings)
    (candles : List BufferCandle) (v : Option ℚ) :
    ((IndKey.macdsignal_7, v) ∈
        compute_technical_indicators talib settings candles)
      ↔ (26 ≤ candles.length ∧
          v = (talib.MACD (candles.map (·.close))).2.1) := by
  unfold compute_technical_indicators
  by_cases h2 : candles.length < 2
  · rw [if_pos h2]
    simp only [List.not_mem_nil, false_iff]
    rintro ⟨h, -⟩
    omega
  · rw [if_neg h2]
    dsimp only
    constructor
    · intro h
      rcases List.mem_append.mp h with h | hE
      rcases List.mem_append.mp h with h | hD
      rcases List.mem_append.mp h with h | hC
      rcases List.mem_append.mp h with hA | hB
      · exact absurd hA (by simp)
      · exact absurd hB (by simp)
      · exact absurd hC (by simp)
      · revert hD
        split_ifs with h26 <;> intro hD <;> simp_all
      · exact absurd hE (by simp)
    · rintro ⟨h26, rfl⟩
      refine List.mem_append.mpr (Or.inl (List.mem_append.mpr (Or.inr ?_)))
      rw [if_pos h26]
      simp

theorem mem_compute_macdhist (talib : TalibStream) (settings : IndSettings)
    (candles : List BufferCandle) (v : Option ℚ) :
    ((IndKey.macdhist_7, v) ∈
        compute_technical_indicators talib settings candles)
      ↔ (26 ≤ candles.length ∧
          v = (talib.MACD (candles.map (·.close))).2.2) := by
  unfold compute_technical_indicators
  by_cases h2 : candles.length < 2
  · rw [if_pos h2]
    simp only [List.not_mem_nil, false_iff]
    rintro ⟨h, -⟩
    omega
  · rw [if_neg h2]
    dsimp only
    constructor
    · intro h
      rcases List.mem_append.mp h with h | hE
      rcases List.mem_append.mp h with h | hD
      rcases List.mem_append.mp h with h | hC
      rcases List.mem_append.mp h with hA | hB
      · exact absurd hA (by simp)
      · exact absurd hB (by simp)
      · exact absurd hC (by simp)
      · revert hD
        split_ifs with h26 <;> intro hD <;> simp_all
      · exact absurd hE (by simp)
    · rintro ⟨h26, rfl⟩
      refine List.mem_append.mpr (Or.inl (List.mem_append.mpr (Or.inr ?_)))
      rw [if_pos h26]
      simp

/-- C4 amended.  For every configured period p the field sma_p (likewise
ema_p, rsi_p) is present in the emitted record iff the per-pair buffer
holds at least p candles and at least 2 candles; the macd_7, macdsignal_7
and macdhist_7 fields are present iff the buffer holds at least 26
candles; and an indicator whose computed value is NaN or infinite is
emitted with the value None (null) — the field stays present — rather than
omitted. -/
theorem indicator_presence_amended (talib : TalibStream)
    (settings : IndSettings) (candles : List BufferCandle) (p : ℕ) :
    ((∃ v, (IndKey.sma p, v) ∈
        compute_technical_indicators talib settings candles) ↔
      (p ∈ settings.sma_periods ∧ p ≤ candles.length ∧
        2 ≤ candles.length)) ∧
    ((∃ v, (IndKey.ema p, v) ∈
        compute_technical_indicators talib settings candles) ↔
      (p ∈ settings.ema_periods ∧ p ≤ candles.length ∧
        2 ≤ candles.length)) ∧
    ((∃ v, (IndKey.rsi p, v) ∈
        compute_technical_indicators talib settings candles) ↔
      (p ∈ settings.rsi_periods ∧ p ≤ candles.length ∧
        2 ≤ candles.length)) ∧
    ((∃ v, (IndKey.macd_7, v) ∈
        compute_technical_indicators talib settings candles) ↔
      26 ≤ candles.length) ∧
    ((∃ v, (IndKey.macdsignal_7, v) ∈
        compute_technical_indicators talib settings candles) ↔
      26 ≤ candles.length) ∧
    ((∃ v, (IndKey.macdhist_7, v) ∈
        compute_technical_indicators talib settings candles) ↔
      26 ≤ candles.length) ∧
    (p ∈ settings.rsi_periods → p ≤ candles.length → 2 ≤ candles.length →
      talib.RSI (candles.map (·.close)) p = none →
      (IndKey.rsi p, (none : Option ℚ)) ∈
        compute_technical_indicators talib settings candles) := by
  refine ⟨?_, ?_, ?_, ?_, ?_, ?_, ?_⟩
  · constructor
    · rintro ⟨v, hv⟩
      have := (mem_compute_sma talib settings candles p v).mp hv
      exact ⟨this.2.1, this.2.2.1, this.1⟩
    · rintro ⟨hp, hl, h2⟩
      exact ⟨_, (mem_compute_sma talib settings candles p _).mpr
        ⟨h2, hp, hl, rfl⟩⟩
  · constructor
    · rintro ⟨v, hv⟩
      have := (mem_compute_ema talib settings candles p v).mp hv
      exact ⟨this.2.1, this.2.2.1, this.1⟩
    · rintro ⟨hp, hl, h2⟩
      exact ⟨_, (mem_compute_ema talib settings candles p _).mpr
        ⟨h2, hp, hl, rfl⟩⟩
  · constructor
    · rintro ⟨v, hv⟩
      have := (mem_compute_rsi talib settings candles p v).mp hv
      exact ⟨this.2.1, this.2.2.1, this.1⟩
    · rintro ⟨hp, hl, h2⟩
      exact ⟨_, (mem_compute_rsi talib settings candles p _).mpr
        ⟨h2, hp, hl, rfl⟩⟩
  · constructor
    · rintro ⟨v, hv⟩
      exact ((mem_compute_macd talib settings candles v).mp hv).1
    · intro h26
      exact ⟨_, (mem_compute_macd talib settings candles _).mpr ⟨h26, rfl⟩⟩
  · constructor
    · rintro ⟨v, hv⟩
      exact ((mem_compute_macdsignal talib settings candles v).mp hv).1
    · intro h26
      exact ⟨_, (mem_compute_macdsignal talib settings candles _).mpr
        ⟨h26, rfl⟩⟩
  · constructor
    · rintro ⟨v, hv⟩
      exact ((mem_compute_macdhist talib settings candles v).mp hv).1
    · intro h26
      exact ⟨_, (mem_compute_macdhist talib settings candles _).mpr
        ⟨h26, rfl⟩⟩
  · intro hp hl h2 hnan
    exact (mem_compute_rsi talib settings candles p none).mpr
      ⟨h2, hp, hl, hnan.symm⟩

/-- Witness for C4 amended at the concrete NaN environment: rsi_14
configured, 14 candles buffered, RSI yields NaN, and the field is present
with value None. -/
theorem indicator_presence_amended_witness :
    ((14 : ℕ) ∈ IndSettings.rsi_periods ⟨[], [], [14]⟩) ∧
    (IndKey.rsi 14, (none : Option ℚ)) ∈
      compute_technical_indicators nan_talib ⟨[], [], [14]⟩ buffer14 :=
  ⟨by decide,
    (indicator_presence_amended nan_talib ⟨[], [], [14]⟩ buffer14 14).2.2.2.2.2.2
      (by decide) (by decide) (by decide) rfl⟩

end TechnicalIndicators

namespace Trades

/-- Constants of KrakenRestAPI
(services/trades/src/trades/kraken_rest_api.py). -/
def NANOSECONDS_PER_SECOND : ℤ := 1000000000

def SECONDS_PER_DAY : ℤ := 24 * 60 * 60

/-- The mutable attributes of a KrakenRestAPI instance. -/
structure RestState where
  product_ids : List String
  current_product_index : ℕ
  current_product_id : Option String
  is_done : Bool
  since_timestamp_ns : ℤ
  original_since_timestamp_ns : ℤ
  deriving Repr, DecidableEq

/-- KrakenRestAPI.__init__: start at the first pair with the cursor
last_n_days back from the wall clock. -/
def mk_rest_state (ids : List String) (last_n_days now_ns : ℤ) : RestState :=
  { product_ids := ids
    current_product_index := 0
    current_product_id := ids.head?
    is_done := false
    since_timestamp_ns :=
      now_ns - last_n_days * SECONDS_PER_DAY * NANOSECONDS_PER_SECOND
    original_since_timestamp_ns :=
      now_ns - last_n_days * SECONDS_PER_DAY * NANOSECONDS_PER_SECOND }

/-- KrakenRestAPI._move_to_next_product: step the index; past the end set
the done flag, otherwise select the next pair and reset the cursor to the
original starting timestamp. -/
def move_to_next_product (st : RestState) : RestState :=
  let idx := st.current_product_index + 1
  if st.product_ids.length ≤ idx then
    { st with current_product_index := idx, is_done := true }
  else
    { st with
      current_product_index := idx
      current_product_id := st.product_ids[idx]?
      since_timestamp_ns := st.original_since_timestamp_ns }

/-- KrakenRestAPI._update_timestamp: set the cursor to result.last from
the response, then advance to the next pair when the cursor exceeds
now_ns - 10^9. -/
def update_timestamp (st : RestState) (last now_ns : ℤ) : RestState :=
  let st1 := { st with since_timestamp_ns := last }
  if now_ns - NANOSECONDS_PER_SECOND < last then move_to_next_product st1
  else st1

/-- The outcome of one round of KrakenRestAPI.get_trades against the
exchange: failed collapses every early return (transport error, JSON
error, API error array, missing pair key); success carries the converted
trades (kept abstract, the Trade construction is a per-element conversion)
and the result.last cursor of the response. -/
inductive RestRound (α : Type) where
  | failed
  | success (trades : List α) (last : ℤ)

/-- KrakenRestAPI.get_trades: the empty list when done or when no pair is
configured, the empty list on a failed round (state unchanged), and on a
successful round the trades plus the _update_timestamp state step. -/
def get_trades {α : Type} (st : RestState) (now_ns : ℤ)
    (round : RestRound α) : List α × RestState :=
  if st.is_done then ([], st)
  else
    match st.current_product_id with
    | none => ([], st)
    | some _ =>
      match round with
      | .failed => ([], st)
      | .success trades last => (trades, update_timestamp st last now_ns)

/-- C8.  In historical REST ingestion: a successful round returns its
trades and sets the cursor to result.last; the pair is finished exactly
when that cursor exceeds now_ns - 10^9, and then ingestion advances to the
next pair, resetting the cursor to the original starting timestamp —
unless the finished pair was the last one, in which case is_done becomes
true; and from any done state every get_trades call returns the empty
list and leaves the state unchanged (so is_done stays true forever). -/
theorem rest_historical_pair_advancement {α : Type} (st : RestState)
    (now_ns last : ℤ) (trades : List α) (h₁ : st.is_done = false)
    (h₂ : st.current_product_id.isSome = true) :
    ((get_trades st now_ns (.success trades last)).1 = trades) ∧
    (last ≤ now_ns - NANOSECONDS_PER_SECOND →
      (get_trades st now_ns (.success trades last)).2 =
        { st with since_timestamp_ns := last }) ∧
    (now_ns - NANOSECONDS_PER_SECOND < last →
      ((get_trades st now_ns (.success trades last)).2.current_product_index =
          st.current_product_index + 1 ∧
        (st.current_product_index + 1 < st.product_ids.length →
          (get_trades st now_ns (.success trades last)).2.since_timestamp_ns =
              st.original_since_timestamp_ns ∧
            (get_trades st now_ns (.success trades last)).2.current_product_id =
              st.product_ids[st.current_product_index + 1]? ∧
            (get_trades st now_ns (.success trades last)).2.is_done = false) ∧
        (st.product_ids.length ≤ st.current_product_index + 1 →
          (get_trades st now_ns (.success trades last)).2.is_done = true))) ∧
    (∀ (st₂ : RestState) (r : RestRound α), st₂.is_done = true →
      get_trades st₂ now_ns r = ([], st₂)) := by
  obtain ⟨pid, hpid⟩ := Option.isSome_iff_exists.mp h₂
  have hget : get_trades st now_ns (.success trades last) =
      (trades, update_timestamp st last now_ns) := by
    unfold get_trades
    rw [h₁, hpid]
    rfl
  refine ⟨by rw [hget], ?_, ?_, ?_⟩
  · intro hle
    rw [hget]
    unfold update_timestamp
    dsimp only
    rw [if_neg (not_lt.mpr hle)]
  · intro hlt
    rw [hget]
    unfold update_timestamp
    dsimp only
    rw [if_pos hlt]
    unfold move_to_next_product
    dsimp only
    refine ⟨?_, ?_, ?_⟩
    · split_ifs <;> rfl
    · intro hidx
      rw [if_neg (not_le.mpr hidx)]
      exact ⟨rfl, rfl, h₁⟩
    · intro hidx
      rw [if_pos hidx]
  · intro st₂ r hdone
    unfold get_trades
    rw [hdone]
    rfl

/-- Witness for C8 at a two-pair state: a successful round whose cursor
passes now_ns - 10^9 advances from the first to the second pair and resets
the cursor to the original timestamp. -/
theorem rest_historical_pair_advancement_witness :
    (RestState.is_done
        ⟨["BTC/USD", "ETH/USD"], 0, some "BTC/USD", false, 5, 5⟩ = false) ∧
    (get_trades ⟨["BTC/USD", "ETH/USD"], 0, some "BTC/USD", false, 5, 5⟩
        2000000000 (.success [(7 : ℕ)] 1500000000)).2.current_product_index =
      0 + 1 ∧
    (get_trades ⟨["BTC/USD", "ETH/USD"], 0, some "BTC/USD", false, 5, 5⟩
        2000000000 (.success [(7 : ℕ)] 1500000000)).2.since_timestamp_ns = 5 :=
  ⟨rfl,
    ((rest_historical_pair_advancement
      ⟨["BTC/USD", "ETH/USD"], 0, some "BTC/USD", false, 5, 5⟩
      2000000000 1500000000 [(7 : ℕ)] rfl rfl).2.2.1 (by decide)).1,
    ((((rest_historical_pair_advancement
      ⟨["BTC/USD", "ETH/USD"], 0, some "BTC/USD", false, 5, 5⟩
      2000000000 1500000000 [(7 : ℕ)] rfl rfl).2.2.1 (by decide)).2.1
        (by decide)).1)⟩

end Trades
